import Mathlib

/-!
Verification of the DIYA / Brand Content Studio repository: a React
frontend plus a Flask backend whose brand-extraction pipeline scrapes a
website, enriches the findings with the BrandFetch API and performs a
single AI synthesis pass.  The definitions below shallowly embed the
frontend JavaScript (api.js, BrandContext.jsx, BrandPersona.jsx,
main.js) and, where the backend Python is only documented, model the
documented 8-stage pipeline.
-/

namespace Diya

/-- JavaScript `a || b` on a string-or-undefined value: an absent or
empty string is falsy, so the default is used. -/
def jsOrString (o : Option String) (d : String) : String :=
  match o with
  | none => d
  | some s => if s = "" then d else s

/-! ## BrandPersona.jsx: `isLightColor` -/

/-- Value of one hexadecimal digit, as accepted by JavaScript
`parseInt(_, 16)` (both letter cases). -/
def hexDigitVal (c : Char) : Option Nat :=
  if '0' ≤ c ∧ c ≤ '9' then some (c.toNat - '0'.toNat)
  else if 'a' ≤ c ∧ c ≤ 'f' then some (c.toNat - 'a'.toNat + 10)
  else if 'A' ≤ c ∧ c ≤ 'F' then some (c.toNat - 'A'.toNat + 10)
  else none

/-- JavaScript `parseInt(s, 16)`: parse the maximal run of leading hex
digits; `none` models `NaN` when there is no digit. -/
def parseIntHex (l : List Char) : Option Nat :=
  let ds := l.takeWhile (fun c => (hexDigitVal c).isSome)
  if ds.isEmpty then none
  else some (List.foldl (fun a c => 16 * a + (hexDigitVal c).getD 0) 0 ds)

/-- JavaScript `s.replace('#', '')` with a string pattern: remove the
first occurrence of the character. -/
def removeFirstHash : List Char → List Char
  | [] => []
  | c :: cs => if c = '#' then cs else c :: removeFirstHash cs

/-- JavaScript `s.substr(i, n)`. -/
def jsSubstr (l : List Char) (i n : Nat) : List Char :=
  (l.drop i).take n

/-- `isLightColor` from BrandPersona.jsx.  `none` models a `null` or
`undefined` argument; an empty string is also falsy.  Brightness is the
exact rational `(r*299 + g*587 + b*114) / 1000`; a `NaN` component makes
the comparison false, as in JavaScript. -/
def isLightColor : Option String → Bool
  | none => true
  | some hex =>
    if hex = "" then true
    else
      let color := removeFirstHash hex.data
      match parseIntHex (jsSubstr color 0 2), parseIntHex (jsSubstr color 2 2),
            parseIntHex (jsSubstr color 4 2) with
      | some r, some g, some b =>
          decide (((r * 299 + g * 587 + b * 114 : ℚ) / 1000) > 155)
      | _, _, _ => false

/-! ## BrandPersona.jsx: colour palette processing -/

/-- One element of `brandData.colors`: either a bare hex string or a
`[hex, name]` tuple (a JavaScript array). -/
inductive ColorEntry where
  | str (s : String)
  | arr (l : List String)
deriving Repr, DecidableEq

/-- `Array.isArray(color) ? color[0] : color`; indexing an empty array
yields `undefined`, modelled as `none`. -/
def colorEntryHex : ColorEntry → Option String
  | .str s => some s
  | .arr l => l.head?

/-- `processedColors` of BrandPersona.jsx: `colors.slice(0, 5)` mapped
through the tuple-or-string projection. -/
def processedColors (colors : List ColorEntry) : List (Option String) :=
  (colors.take 5).map colorEntryHex

/-- The fixed fallback palette of BrandPersona.jsx. -/
def fallbackPalette : List (Option String) :=
  [some "#111111", some "#00c237", some "#f9f9f9"]

/-- `displayColors` of BrandPersona.jsx: the processed palette when it
is non-empty, the fallback palette otherwise. -/
def displayColors (colors : List ColorEntry) : List (Option String) :=
  if (processedColors colors).length > 0 then processedColors colors
  else fallbackPalette

/-! ## api.js: `analyzeBrand` and `generateCalendar` -/

/-- An HTTP request as built by api.js: method, path (relative to
API_BASE_URL), content type and JSON body. -/
structure HttpRequest (β : Type) where
  method : String
  path : String
  contentType : String
  body : β
deriving Repr, DecidableEq

/-- An HTTP response as observed by api.js: the `ok` flag, the numeric
status, and the parsed JSON body (`none` when `response.json()`
rejects). -/
structure HttpResponse (β : Type) where
  ok : Bool
  status : Nat
  body : Option β
deriving Repr, DecidableEq

/-- JSON body sent by `analyzeBrand`: `{ source: 'url', url }`. -/
structure AnalyzeReqBody where
  source : String
  url : String
deriving Repr, DecidableEq

/-- Parsed JSON body of a `/brand/analyze` response. -/
structure AnalyzeRespBody (α : Type) where
  success : Bool
  error : Option String
  brand_data : α
deriving Repr, DecidableEq

/-- The request `analyzeBrand(url)` hands to `fetch`. -/
def analyzeBrandRequest (url : String) : HttpRequest AnalyzeReqBody :=
  { method := "POST", path := "/brand/analyze",
    contentType := "application/json",
    body := { source := "url", url := url } }

/-- `analyzeBrand` from api.js.  `send` is the network: it maps the
request to the response `fetch` resolves with.  A thrown `Error` is an
`Except.error` carrying its message. -/
def analyzeBrandJS (url : String)
    (send : HttpRequest AnalyzeReqBody → HttpResponse (AnalyzeRespBody α)) :
    Except String α :=
  let resp := send (analyzeBrandRequest url)
  if resp.ok = false then
    .error (jsOrString (resp.body.bind (fun b => b.error))
      ("API request failed with status " ++ toString resp.status))
  else
    match resp.body with
    | none => .error "Unexpected end of JSON input"
    | some data =>
      if data.success then .ok data.brand_data
      else .error (jsOrString data.error "Brand analysis failed")

/-- JSON body sent by `generateCalendar`: `{ brand_data, tone }`. -/
structure CalendarReqBody (β : Type) where
  brand_data : β
  tone : String
deriving Repr, DecidableEq

/-- Parsed JSON body of a `/calendar/generate` response. -/
structure CalendarRespBody (γ : Type) where
  success : Bool
  error : Option String
  calendar : γ
deriving Repr, DecidableEq

/-- The request `generateCalendar(brandData, tone)` hands to `fetch`. -/
def generateCalendarRequest (brandData : β) (tone : String) :
    HttpRequest (CalendarReqBody β) :=
  { method := "POST", path := "/calendar/generate",
    contentType := "application/json",
    body := { brand_data := brandData, tone := tone } }

/-- `generateCalendar` from api.js, embedded like `analyzeBrandJS`. -/
def generateCalendarJS (brandData : β) (tone : String)
    (send : HttpRequest (CalendarReqBody β) → HttpResponse (CalendarRespBody γ)) :
    Except String γ :=
  let resp := send (generateCalendarRequest brandData tone)
  if resp.ok = false then
    .error (jsOrString (resp.body.bind (fun b => b.error))
      ("API request failed with status " ++ toString resp.status))
  else
    match resp.body with
    | none => .error "Unexpected end of JSON input"
    | some data =>
      if data.success then .ok data.calendar
      else .error (jsOrString data.error "Calendar generation failed")

/-! ## BrandContext.jsx -/

/-- The state held by `BrandProvider`: the url, the analysed brand
data, and the loading / error flags. -/
structure BrandCtxState (α : Type) where
  url : String
  brandData : Option α
  loading : Bool
  error : Option String
deriving Repr, DecidableEq

/-- `analyzeBrand` of BrandContext.jsx, as a state transformer.  The
underlying API call is given by its outcome: `Except.error m` models a
rejection whose `err.message` is `m`.  The function sets `loading`,
clears `error`, awaits the call, stores the data or the failure
message (`err.message || 'Failed to analyze brand'`), re-throws on
failure, and resets `loading` in the `finally` block. -/
def ctxAnalyzeBrand (s : BrandCtxState α) (apiResult : Except String α) :
    BrandCtxState α × Except String α :=
  let s1 : BrandCtxState α := { s with loading := true, error := none }
  match apiResult with
  | .ok d =>
    ({ s1 with brandData := some d, loading := false }, .ok d)
  | .error m =>
    let msg := jsOrString (some m) "Failed to analyze brand"
    ({ s1 with error := some msg, loading := false }, .error m)

/-! ## The backend brand-extraction pipeline

`asset_extractor.py` itself is not part of the source tree; only its
documentation is (`docs/brand-extraction/architecture.md` and the
8-stage pipeline description).  The definitions below are therefore
modelled from the spec. -/

/-- Modelled from the spec: one section of a crawled page, as used by
Stage 5 DOM-weighted scoring (`asset_extractor.py` is missing from the
source tree; the 8-stage pipeline document describes it). -/
structure PageSection where
  name : String
  colors : List String
  logos : List String
deriving Repr, DecidableEq

/-- Modelled from the spec: the data obtained by fetching one page
(`asset_extractor.py` is missing from the source tree). -/
structure PageData where
  url : String
  text : String
  sections : List PageSection
  fonts : List String
  styleSheetLinks : List String
deriving Repr, DecidableEq

/-- Modelled from the spec: the website as seen by the crawler — its
homepage, the keyword-matched internal links found on the homepage, and
the content behind each link (`asset_extractor.py` is missing from the
source tree). -/
structure Site where
  homepage : PageData
  internalLinks : List String
  fetchPage : String → PageData

/-- Modelled from the spec: the verified assets returned by the
BrandFetch API (`brand_fetcher.py` is missing from the source tree). -/
structure BrandfetchData where
  logos : List String
  colors : List String
  fonts : List String
deriving Repr, DecidableEq

/-- Modelled from the spec: the strategy fields of the single JSON-mode
AI synthesis pass (archetype, voice, content pillars). -/
structure Strategy where
  archetype : String
  voice : String
  pillars : List String
deriving Repr, DecidableEq

/-- Modelled from the spec: the `BrandAssets` object the pipeline
returns. -/
structure BrandAssets where
  colors : List String
  fonts : List String
  logo : Option String
  strategy : Strategy
  contentSummary : String
  pagesAnalyzed : List String
deriving Repr, DecidableEq

/-- Modelled from the spec: the externally observable actions of one
pipeline run, in order of issue. -/
inductive Event where
  | brandfetchQuery (domain : String)
  | fetchHome (url : String)
  | parallelFetch (urls : List String)
  | assetDiscovery
  | cssAnalysis
  | domScoring
  | textCondensation
  | aiCall (promptLen : Nat)
  | paletteMerge
deriving Repr, DecidableEq

/-- Does the event call the generative-AI model? -/
def Event.isAiCall : Event → Bool
  | .aiCall _ => true
  | _ => false

/-- Is the event a parallel batch of HTTP fetches? -/
def Event.isParallelFetch : Event → Bool
  | .parallelFetch _ => true
  | _ => false

/-- Is the event an HTTP page fetch (homepage or crawl batch)? -/
def Event.isPageFetch : Event → Bool
  | .fetchHome _ => true
  | .parallelFetch _ => true
  | _ => false

/-- Is the event the final palette cluster and merge stage? -/
def Event.isMerge : Event → Bool
  | .paletteMerge => true
  | _ => false

/-- Modelled from the spec: Stage 6 strips boilerplate lines that
mention cookies, privacy links or footers. -/
def boilerplateMarkers : List String := ["cookie", "privacy", "footer", "terms"]

/-- A line is boilerplate when it contains one of the markers. -/
def isBoilerplate (line : String) : Bool :=
  boilerplateMarkers.any (fun m => (line.splitOn m).length > 1)

/-- The character budget of the condensed "semantic diamond". -/
def condenseLimit : Nat := 3500

/-- Modelled from the spec: Stage 6 text condensation — strip
boilerplate lines and cut the joined multi-page text to about 3,500
characters. -/
def condense (texts : List String) : String :=
  let lines := texts.flatMap (fun t => t.splitOn "\n")
  let kept := lines.filter (fun l => !isBoilerplate l)
  let joined := String.intercalate " " kept
  String.mk (joined.data.take condenseLimit)

/-- DOM weight of a section name, Stage 5: header / hero / banner / nav
sections count more. -/
def domWeight (name : String) : Nat :=
  if name = "header" ∨ name = "hero" ∨ name = "banner" ∨ name = "nav" then 3
  else 1

/-- Stage 5: total DOM weight of one colour across the crawled pages. -/
def colorWeight (pages : List PageData) (c : String) : Nat :=
  List.foldl
    (fun acc sec => if c ∈ sec.colors then acc + domWeight sec.name else acc)
    0 (pages.flatMap (fun p => p.sections))

/-- Stage 5: the palette candidates ordered by descending DOM weight. -/
def scorePalette (pages : List PageData) : List String :=
  let cs := (pages.flatMap (fun p => p.sections.flatMap (fun s => s.colors))).dedup
  cs.mergeSort (fun a b => colorWeight pages b ≤ colorWeight pages a)

/-- Stage 8: aggressive clustering, modelled as deduplication and a cut
to a small distinct palette. -/
def clusterPalette (cs : List String) : List String :=
  cs.dedup.take 6

/-- Stage 8: merge the website findings with the BrandFetch official
data (official colours and logos take precedence). -/
def mergeAssets (webColors : List String) (webFonts : List String)
    (webLogos : List String) (strat : Strategy) (summary : String)
    (pages : List String) (bf : BrandfetchData) : BrandAssets :=
  { colors := clusterPalette (bf.colors ++ webColors)
    fonts := (bf.fonts ++ webFonts).dedup
    logo := (bf.logos ++ webLogos).head?
    strategy := strat
    contentSummary := summary
    pagesAnalyzed := pages }

/-- Modelled from the spec: the 8-stage extraction pipeline of
`asset_extractor.py` (missing from the source tree).  `ai` is the
Gemini JSON-mode oracle, `bf` the BrandFetch client.  Returns the
merged `BrandAssets` and the ordered trace of observable events:
Stage 1 BrandFetch enrichment, Stage 2 parallel multi-page crawling
(homepage, then up to 3 internal pages in one parallel batch), Stage 3
asset discovery, Stage 4 external CSS analysis, Stage 5 DOM-weighted
scoring, Stage 6 text condensation, Stage 7 the single AI synthesis
pass over the condensed text, Stage 8 palette cluster and merge. -/
def runPipeline (ai : String → Strategy × String)
    (bf : String → BrandfetchData) (domain : String) (site : Site) :
    BrandAssets × List Event :=
  let seed := bf domain
  let crawlUrls := site.internalLinks.take 3
  let pages := site.homepage :: crawlUrls.map site.fetchPage
  let webLogos := pages.flatMap (fun p => p.sections.flatMap (fun s => s.logos))
  let webFonts := pages.flatMap (fun p => p.fonts)
  let scored := scorePalette pages
  let condensed := condense (pages.map (fun p => p.text))
  let synth := ai condensed
  let assets := mergeAssets scored webFonts webLogos synth.1 synth.2
    (pages.map (fun p => p.url)) seed
  let events : List Event :=
    [.brandfetchQuery domain, .fetchHome site.homepage.url,
     .parallelFetch crawlUrls, .assetDiscovery, .cssAnalysis, .domScoring,
     .textCondensation, .aiCall condensed.length, .paletteMerge]
  (assets, events)

/-! ## The stateless server -/

/-- Modelled from the spec: server-side storage.  The architecture
document states the flow is stateless and nothing is saved to a
database; `routes.py` is missing from the source tree, so the handler
is modelled with an explicit store it never touches. -/
structure ServerState where
  savedBrands : List BrandAssets
deriving Repr, DecidableEq

/-- Modelled from the spec: the `/brand/analyze` handler of `routes.py`
(missing from the source tree) — run the pipeline and return the brand
data, leaving the server store as it was. -/
def handleAnalyze (st : ServerState) (ai : String → Strategy × String)
    (bf : String → BrandfetchData) (domain : String) (site : Site) :
    BrandAssets × ServerState :=
  ((runPipeline ai bf domain site).1, st)

/-- Modelled from the spec: the `/calendar/generate` handler of
`routes.py` (missing from the source tree) — generate the 7-day
calendar from the posted brand data and tone, leaving the server store
as it was. -/
def handleGenerateCalendar (st : ServerState)
    (gen : BrandAssets → String → List String) (bd : BrandAssets)
    (tone : String) : List String × ServerState :=
  (gen bd tone, st)

/-! ## Theorems -/

/-- C9: `isLightColor` returns true for every null, undefined or empty
input, and on a well-formed "#RRGGBB" hex string it returns true iff
the weighted brightness `(299*R + 587*G + 114*B) / 1000` exceeds 155,
where R, G, B are the byte components parsed from the hex digits. -/
theorem isLightColor_spec :
    isLightColor none = true ∧ isLightColor (some "") = true ∧
    ∀ (c1 c2 c3 c4 c5 c6 : Char) (r1 r2 g1 g2 b1 b2 : ℕ),
      hexDigitVal c1 = some r1 → hexDigitVal c2 = some r2 →
      hexDigitVal c3 = some g1 → hexDigitVal c4 = some g2 →
      hexDigitVal c5 = some b1 → hexDigitVal c6 = some b2 →
      (isLightColor (some (String.mk ['#', c1, c2, c3, c4, c5, c6])) = true ↔
        (299 * (16 * (r1 : ℚ) + r2) + 587 * (16 * g1 + g2) +
          114 * (16 * b1 + b2)) / 1000 > 155) := by
  refine ⟨rfl, rfl, ?_⟩
  intro c1 c2 c3 c4 c5 c6 r1 r2 g1 g2 b1 b2 h1 h2 h3 h4 h5 h6
  have hne : String.mk ['#', c1, c2, c3, c4, c5, c6] ≠ "" := by
    simp [String.ext_iff]
  simp only [isLightColor, if_neg hne, removeFirstHash, jsSubstr, parseIntHex,
    List.drop, List.take, List.takeWhile, h1, h2, h3, h4, h5, h6,
    Option.isSome_some, List.isEmpty_cons, List.foldl, Option.getD_some,
    if_true, ite_true, Bool.false_eq_true, ite_false, decide_eq_true_iff]
  push_cast
  constructor <;> intro h <;> linarith

/-- C9 witness: the theorem applied to the concrete string "#ffffff". -/
theorem isLightColor_spec_witness :
    isLightColor (some (String.mk ['#', 'f', 'f', 'f', 'f', 'f', 'f'])) = true ↔
      (299 * (16 * (15 : ℚ) + 15) + 587 * (16 * 15 + 15) +
        114 * (16 * 15 + 15)) / 1000 > 155 :=
  isLightColor_spec.2.2 'f' 'f' 'f' 'f' 'f' 'f' 15 15 15 15 15 15
    rfl rfl rfl rfl rfl rfl

/-- C10: the palette rendered by BrandPersona is non-empty and has at
most 5 entries; the brand's colour list is truncated to its first 5
elements, each projected to the first component of a tuple or the
string itself; and when the processed list is empty the fixed fallback
palette is displayed. -/
theorem displayColors_spec (cs : List ColorEntry) :
    1 ≤ (displayColors cs).length ∧ (displayColors cs).length ≤ 5 ∧
    processedColors cs = (cs.take 5).map colorEntryHex ∧
    (processedColors cs = [] → displayColors cs = fallbackPalette) ∧
    (processedColors cs ≠ [] → displayColors cs = processedColors cs) := by
  have hlen : (processedColors cs).length ≤ 5 := by
    simp only [processedColors, List.length_map, List.length_take]
    exact min_le_left _ _
  by_cases h : processedColors cs = []
  · refine ⟨?_, ?_, rfl, fun _ => ?_, fun hc => absurd h hc⟩ <;>
      simp [displayColors, h, fallbackPalette]
  · have hpos : 0 < (processedColors cs).length := List.length_pos.mpr h
    have hd : displayColors cs = processedColors cs := by
      simp [displayColors, hpos]
    exact ⟨by rw [hd]; exact hpos, by rw [hd]; exact hlen, rfl,
      fun hc => absurd hc h, fun _ => hd⟩

/-- C10 witness: the theorem applied to the empty colour list yields
the fallback palette. -/
theorem displayColors_spec_witness :
    displayColors [] = fallbackPalette :=
  (displayColors_spec []).2.2.2.1 rfl

/-- C8: `BrandContext.analyzeBrand` is atomic on failure — a rejection
of the API call leaves `brandData` unchanged, sets the error state to
the failure message, re-throws the rejection, and leaves `loading`
false; a success also ends with `loading` false. -/
theorem ctxAnalyzeBrand_atomic {α : Type} (s : BrandCtxState α) (m : String) :
    (ctxAnalyzeBrand s (.error m)).1.brandData = s.brandData ∧
    (ctxAnalyzeBrand s (.error m)).1.error =
      some (if m = "" then "Failed to analyze brand" else m) ∧
    (ctxAnalyzeBrand s (.error m)).2 = .error m ∧
    (ctxAnalyzeBrand s (.error m)).1.loading = false ∧
    ∀ (d : α), (ctxAnalyzeBrand s (.ok d)).1.loading = false := by
  refine ⟨rfl, ?_, rfl, rfl, fun d => rfl⟩
  simp [ctxAnalyzeBrand, jsOrString]

/-- C3: `analyzeBrand(url)` sends a POST request with JSON body
`{source: "url", url}` to `/brand/analyze`, and when the response is ok
and the parsed body's `success` field is true it returns exactly the
`brand_data` field of the response body. -/
theorem analyzeBrand_spec {α : Type} (url : String)
    (send : HttpRequest AnalyzeReqBody → HttpResponse (AnalyzeRespBody α)) :
    (analyzeBrandRequest url).method = "POST" ∧
    (analyzeBrandRequest url).path = "/brand/analyze" ∧
    (analyzeBrandRequest url).body = { source := "url", url := url } ∧
    ∀ (b : AnalyzeRespBody α),
      (send (analyzeBrandRequest url)).ok = true →
      (send (analyzeBrandRequest url)).body = some b →
      b.success = true →
      analyzeBrandJS url send = .ok b.brand_data := by
  refine ⟨rfl, rfl, rfl, ?_⟩
  intro b hok hbody hsucc
  simp [analyzeBrandJS, hok, hbody, hsucc]

/-- C3 witness: the theorem applied to a network that answers with an
ok response whose body has `success = true` and `brand_data = 7`. -/
theorem analyzeBrand_spec_witness :
    analyzeBrandJS "https://example.com"
      (fun _ => { ok := true, status := 200,
                  body := some { success := true, error := none,
                                 brand_data := (7 : ℕ) } }) = .ok 7 :=
  (analyzeBrand_spec "https://example.com" _).2.2.2
    { success := true, error := none, brand_data := (7 : ℕ) } rfl rfl rfl

/-- C4: `generateCalendar(brandData, tone)` sends a POST request with
JSON body `{brand_data, tone}` to `/calendar/generate`; on an ok
response with `success = true` it returns the body's `calendar` field,
and it throws an Error carrying the response's error message exactly
when the response is not ok or the body's `success` field is false. -/
theorem generateCalendar_spec {β γ : Type} (bd : β) (tone : String)
    (send : HttpRequest (CalendarReqBody β) → HttpResponse (CalendarRespBody γ)) :
    (generateCalendarRequest bd tone).method = "POST" ∧
    (generateCalendarRequest bd tone).path = "/calendar/generate" ∧
    (generateCalendarRequest bd tone).body = { brand_data := bd, tone := tone } ∧
    ∀ (b : CalendarRespBody γ),
      (send (generateCalendarRequest bd tone)).body = some b →
      ((∃ e, generateCalendarJS bd tone send = .error e) ↔
        ((send (generateCalendarRequest bd tone)).ok = false ∨
          b.success = false)) ∧
      ((send (generateCalendarRequest bd tone)).ok = false →
        generateCalendarJS bd tone send =
          .error (jsOrString b.error ("API request failed with status " ++
            toString (send (generateCalendarRequest bd tone)).status))) ∧
      ((send (generateCalendarRequest bd tone)).ok = true →
        b.success = false →
        generateCalendarJS bd tone send =
          .error (jsOrString b.error "Calendar generation failed")) ∧
      ((send (generateCalendarRequest bd tone)).ok = true →
        b.success = true →
        generateCalendarJS bd tone send = .ok b.calendar) := by
  refine ⟨rfl, rfl, rfl, ?_⟩
  intro b hbody
  rcases hok : (send (generateCalendarRequest bd tone)).ok with _ | _ <;>
    rcases hs : b.success with _ | _ <;>
      simp [generateCalendarJS, hbody, hok, hs]

/-- C4 witness: the theorem applied to a network whose response is ok
with `success = true` and `calendar = 9`. -/
theorem generateCalendar_spec_witness :
    generateCalendarJS (1 : ℕ) "professional"
      (fun _ => { ok := true, status := 200,
                  body := some { success := true, error := none,
                                 calendar := (9 : ℕ) } }) = .ok 9 :=
  (((generateCalendar_spec (1 : ℕ) "professional" _).2.2.2
      { success := true, error := none, calendar := (9 : ℕ) } rfl).2.2.2) rfl rfl

/-- C1: for every URL-based analysis, the pipeline trace contains
exactly one generative-AI call; no page fetch happens at or after that
call, and the asset-discovery, DOM-weighted-scoring and
text-condensation stages all precede it. -/
theorem pipeline_single_ai_call (ai : String → Strategy × String)
    (bf : String → BrandfetchData) (domain : String) (site : Site) :
    (((runPipeline ai bf domain site).2).filter Event.isAiCall).length = 1 ∧
    (((runPipeline ai bf domain site).2).drop
      (((runPipeline ai bf domain site).2).findIdx Event.isAiCall)).filter
        Event.isPageFetch = [] ∧
    ((runPipeline ai bf domain site).2).findIdx Event.isPageFetch <
      ((runPipeline ai bf domain site).2).findIdx Event.isAiCall ∧
    ((runPipeline ai bf domain site).2).findIdx
        (fun e => e == Event.assetDiscovery) <
      ((runPipeline ai bf domain site).2).findIdx Event.isAiCall ∧
    ((runPipeline ai bf domain site).2).findIdx
        (fun e => e == Event.domScoring) <
      ((runPipeline ai bf domain site).2).findIdx Event.isAiCall ∧
    ((runPipeline ai bf domain site).2).findIdx
        (fun e => e == Event.textCondensation) <
      ((runPipeline ai bf domain site).2).findIdx Event.isAiCall := by
  have h1 : (1 : ℕ) < 7 := by omega
  have h3 : (3 : ℕ) < 7 := by omega
  have h5 : (5 : ℕ) < 7 := by omega
  have h6 : (6 : ℕ) < 7 := by omega
  exact ⟨rfl, rfl, h1, h3, h5, h6⟩

/-- C2: the palette cluster-and-merge with the BrandFetch data is the
last event of every pipeline run, coming after the AI call and after
the page fetches, and the returned brand data is exactly the merge of
the website-derived findings with the BrandFetch data. -/
theorem pipeline_merge_is_final (ai : String → Strategy × String)
    (bf : String → BrandfetchData) (domain : String) (site : Site) :
    ((runPipeline ai bf domain site).2).getLast? = some Event.paletteMerge ∧
    ((runPipeline ai bf domain site).2).findIdx Event.isAiCall <
      ((runPipeline ai bf domain site).2).findIdx Event.isMerge ∧
    ((runPipeline ai bf domain site).2).findIdx Event.isPageFetch <
      ((runPipeline ai bf domain site).2).findIdx Event.isMerge ∧
    (runPipeline ai bf domain site).1 =
      mergeAssets
        (scorePalette
          (site.homepage :: (site.internalLinks.take 3).map site.fetchPage))
        ((site.homepage :: (site.internalLinks.take 3).map site.fetchPage).flatMap
          (fun p => p.fonts))
        ((site.homepage :: (site.internalLinks.take 3).map site.fetchPage).flatMap
          (fun p => p.sections.flatMap (fun s => s.logos)))
        (ai (condense
          ((site.homepage :: (site.internalLinks.take 3).map site.fetchPage).map
            (fun p => p.text)))).1
        (ai (condense
          ((site.homepage :: (site.internalLinks.take 3).map site.fetchPage).map
            (fun p => p.text)))).2
        ((site.homepage :: (site.internalLinks.take 3).map site.fetchPage).map
          (fun p => p.url))
        (bf domain) := by
  have h7 : (7 : ℕ) < 8 := by omega
  have h1 : (1 : ℕ) < 8 := by omega
  exact ⟨rfl, h7, h1, rfl⟩

/-- C5: no operation writes to a server-side store — the analyze
handler returns its server state unchanged, while the analyzed brand
data is stored client-side in the React BrandContext. -/
theorem server_stateless (st : ServerState) (ai : String → Strategy × String)
    (bf : String → BrandfetchData) (domain : String) (site : Site) :
    (handleAnalyze st ai bf domain site).2 = st ∧
    (∀ (gen : BrandAssets → String → List String) (bd : BrandAssets)
      (tone : String), (handleGenerateCalendar st gen bd tone).2 = st) ∧
    ∀ (α : Type) (s : BrandCtxState α) (d : α),
      (ctxAnalyzeBrand s (.ok d)).1.brandData = some d :=
  ⟨rfl, fun _ _ _ => rfl, fun _ _ _ => rfl⟩

/-- C6: the crawl issues exactly one parallel-fetch batch, holding at
most 3 internal pages; the only page fetches of a run are the homepage
fetch and that batch, and at most 4 pages are analyzed in total. -/
theorem pipeline_crawl_bound (ai : String → Strategy × String)
    (bf : String → BrandfetchData) (domain : String) (site : Site) :
    ((runPipeline ai bf domain site).2).filter Event.isParallelFetch =
      [Event.parallelFetch (site.internalLinks.take 3)] ∧
    (site.internalLinks.take 3).length ≤ 3 ∧
    ((runPipeline ai bf domain site).2).filter Event.isPageFetch =
      [Event.fetchHome site.homepage.url,
       Event.parallelFetch (site.internalLinks.take 3)] ∧
    (runPipeline ai bf domain site).1.pagesAnalyzed.length ≤ 4 := by
  refine ⟨rfl, ?_, rfl, ?_⟩
  · rw [List.length_take]
    exact min_le_left _ _
  · show (((site.homepage :: (site.internalLinks.take 3).map site.fetchPage).map
      (fun p => p.url)).length) ≤ 4
    simp only [List.length_map, List.length_cons, List.length_take]
    omega

/-- C7: the condensed text never exceeds 3,500 characters, and the one
AI call of every pipeline run receives a prompt of at most 3,500
characters. -/
theorem pipeline_prompt_bound :
    (∀ (texts : List String), (condense texts).length ≤ 3500) ∧
    ∀ (ai : String → Strategy × String) (bf : String → BrandfetchData)
      (domain : String) (site : Site),
      ∃ n ≤ 3500,
        ((runPipeline ai bf domain site).2).filter Event.isAiCall =
          [Event.aiCall n] := by
  have hcond : ∀ (texts : List String), (condense texts).length ≤ 3500 := by
    intro texts
    show (String.mk _).length ≤ 3500
    simp only [String.length, List.length_take]
    exact min_le_left _ _
  refine ⟨hcond, ?_⟩
  intro ai bf domain site
  exact ⟨_, hcond _, rfl⟩

end Diya
